import Mathlib

/-!
Shallow embedding of the compliance-scoring and risk-assessment pipeline of
the Gemini-compliance repository (src/src/compliance_monitor.py,
src/src/audit_system.py, src/src/fix_suggester.py,
src/src/regulation_parser.py).

Modelling conventions:
* Python floats are modelled as rationals (`ℚ`); `round(x, 2)` as `round2`.
* Python dicts whose keys may be absent are modelled as structures of
  `Option` fields; `d.get(k, default)` becomes `Option.getD`.
* A Python value that may be `None` is an `Option`; Python truthiness of an
  optional number (`if revenue:`) is `pyTruthyQ`.
* `int(x)` on a non-negative float is truncation (`pyInt`).
* The substring test `pat in s` is `pyIn`.
* The optional generation backend (`self.model`) is a parameter: `none`
  means no backend is configured; a configured backend is a function that
  either returns a parsed value or fails (`Except`), matching the
  try/except recovery in the Python code.
-/

namespace GeminiCompliance

/-- `charsPre pat s` holds when `pat` is a leading segment of `s`. -/
def charsPre : List Char → List Char → Bool
  | [], _ => true
  | _ :: _, [] => false
  | a :: as, b :: bs => a == b && charsPre as bs

/-- `charsSub pat s` holds when `pat` occurs contiguously in `s`. -/
def charsSub (pat : List Char) : List Char → Bool
  | [] => charsPre pat []
  | c :: t => charsPre pat (c :: t) || charsSub pat t

/-- Python's `pat in s` on strings: contiguous substring containment. -/
def pyIn (pat s : String) : Bool := charsSub pat.data s.data

/-- Python `s.lower()` (per-character, as in the ASCII data used here). -/
def strLower (s : String) : String := ⟨s.data.map Char.toLower⟩

/-- Python `s.upper()` (per-character, as in the ASCII data used here). -/
def strUpper (s : String) : String := ⟨s.data.map Char.toUpper⟩

/-- Python truthiness of an optional number: `None` and `0` are falsy. -/
def pyTruthyQ : Option ℚ → Bool
  | none => false
  | some r => r != 0

/-- Python `round(x, 2)`: round to two decimal places. -/
def round2 (q : ℚ) : ℚ := ((round (q * 100) : ℤ) : ℚ) / 100

/-- Python `int(x)`: truncation toward zero. -/
def pyInt (q : ℚ) : ℤ := q.num / (q.den : ℤ)

/-- A violation dict as produced by the auditor and consumed by the monitor
and the fix suggester; every key may be absent. -/
structure Violation where
  id : Option String
  regulation : Option String
  requirement : Option String
  severity : Option String
  system_affected : Option String
  description : Option String
  evidence : Option String
deriving DecidableEq, Repr

/-- An audit-result dict (`total_checks`, `passed_checks`, `violations`,
`summary`, `recommendations`); every key may be absent. -/
structure AuditResult where
  total_checks : Option ℤ
  passed_checks : Option ℤ
  violations : Option (List Violation)
  summary : Option String
  recommendations : List String
deriving DecidableEq, Repr

/-- The company-data dict. `revenue = none` models an absent key or a null
value (both are falsy downstream). -/
structure CompanyData where
  company_name : Option String
  data_collected : Option (List String)
  data_storage_location : Option String
  ai_models_used : Option (List String)
  user_count : Option ℤ
  revenue : Option ℚ
deriving DecidableEq, Repr

/-! ## ComplianceMonitor: scoring and risk assessment
(src/src/compliance_monitor.py) -/

/-- `severity_weights.get(violation.get("severity", "medium"), 1)`:
the per-violation weight used by `_calculate_compliance_score`. -/
def severityWeight (v : Violation) : ℕ :=
  let severity := v.severity.getD "medium"
  if severity = "critical" then 5
  else if severity = "high" then 3
  else if severity = "medium" then 2
  else if severity = "low" then 1
  else 1

/-- `_calculate_compliance_score`: start at 100, subtract
`10 * weight / total_checks` per violation, clamp to [0, 100];
`total_checks == 0` returns 100 outright. -/
def calculate_compliance_score (audit_results : AuditResult) : ℚ :=
  let violations := audit_results.violations.getD []
  let total_checks : ℤ := audit_results.total_checks.getD (violations.length + 10)
  if total_checks = 0 then 100
  else
    let weighted_score :=
      violations.foldl
        (fun s v => s - 10 * (severityWeight v : ℚ) / (total_checks : ℚ)) 100
    max 0 (min 100 weighted_score)

/-- `severity_points.get(violation.get("severity", "medium"), 0)`:
the per-violation risk points used by `_assess_risk`. -/
def severityPoints (v : Violation) : ℕ :=
  let severity := v.severity.getD "medium"
  if severity = "critical" then 10
  else if severity = "high" then 6
  else if severity = "medium" then 3
  else if severity = "low" then 1
  else 0

/-- `_assess_risk`: ("low", 0.0) on no violations; else tier and fine
percentage by threshold on the summed severity points, fine =
`round(revenue * pct, 2)` guarded by two truthiness checks. -/
def assess_risk (audit_results : AuditResult) (revenue : Option ℚ) :
    String × Option ℚ :=
  let violations := audit_results.violations.getD []
  if violations.isEmpty then ("low", some 0)
  else
    let risk_score := violations.foldl (fun s v => s + severityPoints v) 0
    let riskFine : String × ℚ :=
      if risk_score ≥ 20 then ("critical", 6 / 100)
      else if risk_score ≥ 10 then ("high", 4 / 100)
      else if risk_score ≥ 5 then ("medium", 2 / 100)
      else ("low", 1 / 100)
    let estimated_fine : Option ℚ :=
      if pyTruthyQ revenue then some (revenue.getD 0 * riskFine.2) else none
    (riskFine.1,
      if pyTruthyQ estimated_fine then some (round2 (estimated_fine.getD 0))
      else none)

/-! ## Regulation data model (src/src/regulation_parser.py) -/

/-- One entry of a regulation's `key_requirements` list. -/
structure Requirement where
  id : String
  requirement : String
  category : String
  severity : String
deriving DecidableEq, Repr

/-- The `penalties` sub-dict of a regulation. -/
structure Penalties where
  max_fine_percentage : ℚ
  description : String
deriving DecidableEq, Repr

/-- A parsed regulation dict. -/
structure Regulation where
  regulation_name : String
  key_requirements : List Requirement
  applicable_systems : List String
  penalties : Penalties
deriving DecidableEq, Repr

/-- The mapping name → Regulation built by `parse_regulations`
(a Python dict; first binding wins on lookup, duplicates never disagree). -/
abbrev RegMap := List (String × Regulation)

/-- Python `name in regulations` on the regulation mapping: key membership. -/
def hasKey (m : RegMap) (name : String) : Bool :=
  m.any (fun p => p.1 == name)

/-! ## SystemAuditor (src/src/audit_system.py) -/

/-- `_check_gdpr_compliance`: data-minimization and international-transfer
checks. -/
def check_gdpr_compliance (company_data : CompanyData) : List Violation :=
  let data_collected := company_data.data_collected.getD []
  let minimization : List Violation :=
    if data_collected.length > 10 then
      [{ id := some "gdpr_data_minimization"
       , regulation := some "GDPR"
       , requirement := some "Data minimization - collect only necessary data"
       , severity := some "medium"
       , system_affected := some "data_collection"
       , description := some "Company collects excessive personal data"
       , evidence := some ("Collects " ++ toString data_collected.length ++ " data types") }]
    else []
  let storage := strLower (company_data.data_storage_location.getD "")
  let transfer : List Violation :=
    if pyIn "global" storage || pyIn "usa" storage then
      [{ id := some "gdpr_international_transfer"
       , regulation := some "GDPR"
       , requirement := some "Adequate protection for international data transfers"
       , severity := some "high"
       , system_affected := some "data_storage"
       , description := some "EU data stored in non-adequate countries"
       , evidence := some ("Data stored in: " ++ storage) }]
    else []
  minimization ++ transfer

/-- `_check_ccpa_compliance`: the 50k-user threshold check. -/
def check_ccpa_compliance (company_data : CompanyData) : List Violation :=
  let user_count := company_data.user_count.getD 0
  if user_count > 50000 then
    [{ id := some "ccpa_threshold"
     , regulation := some "CCPA"
     , requirement := some "Compliance required for companies with 50k+ California consumers"
     , severity := some "high"
     , system_affected := some "general"
     , description := some "Company likely meets CCPA threshold"
     , evidence := some ("Has " ++ toString user_count ++ " users") }]
  else []

/-- `_check_ai_act_compliance`: flags transparency when any AI model is in
use. -/
def check_ai_act_compliance (company_data : CompanyData) : List Violation :=
  let ai_models := company_data.ai_models_used.getD []
  if !ai_models.isEmpty then
    [{ id := some "aia_transparency"
     , regulation := some "AI_ACT"
     , requirement := some "Transparency for AI systems"
     , severity := some "medium"
     , system_affected := some "ai_models"
     , description := some "AI model documentation likely insufficient"
     , evidence := some ("Using " ++ toString ai_models.length ++ " AI models") }]
  else []

/-- `_audit_with_rules`: run the per-regulation checks for each regulation
name present in the mapping, then pad the check accounting. -/
def audit_with_rules (company_data : CompanyData) (regulations : RegMap) :
    AuditResult :=
  let violations :=
    (if hasKey regulations "GDPR" then check_gdpr_compliance company_data else []) ++
    (if hasKey regulations "CCPA" then check_ccpa_compliance company_data else []) ++
    (if hasKey regulations "AI_ACT" then check_ai_act_compliance company_data else [])
  { total_checks := some (violations.length + 5)
  , passed_checks := some (max 0 (5 - (violations.length : ℤ)))
  , violations := some violations
  , summary := some ("Found " ++ toString violations.length ++ " violations in "
      ++ company_data.company_name.getD "Unknown" ++ " systems.")
  , recommendations :=
      [ "Review data collection practices"
      , "Implement consent management system"
      , "Document AI model decision processes" ] }

/-- `audit_systems` with no model configured: the try/except takes the
rule-based branch, which is total, so the except-branch default is
unreachable. -/
def audit_systems_noModel (company_data : CompanyData) (regulations : RegMap) :
    AuditResult :=
  audit_with_rules company_data regulations

/-! ## FixSuggester (src/src/fix_suggester.py) -/

/-- A fix dict as built by the suggester; `priority` may be absent in an
arbitrary input to `_prioritize_fixes` (`fix.get("priority", "low")`). -/
structure Fix where
  violation_id : String
  title : String
  description : String
  steps : List String
  estimated_time_hours : ℤ
  required_resources : List String
  priority : Option String
  cost_estimate_usd : ℤ
  compliance_impact : String
deriving DecidableEq, Repr

/-- The shape shared by the three entries of `fix_templates`. -/
structure FixTemplate where
  title : String
  description : String
  steps : List String
  estimated_time_hours : ℤ
  required_resources : List String
  priority : String
  cost_estimate_usd : ℤ
  compliance_impact : String
deriving DecidableEq, Repr

/-- `fix_templates["data_minimization"]`. -/
def data_minimization_template : FixTemplate :=
  { title := "Implement Data Minimization Policy"
  , description := "Reduce collected data to only what's necessary"
  , steps :=
      [ "Audit current data collection"
      , "Identify unnecessary data fields"
      , "Update data collection forms"
      , "Delete historical unnecessary data" ]
  , estimated_time_hours := 40
  , required_resources := ["data_engineer", "legal"]
  , priority := "medium"
  , cost_estimate_usd := 8000
  , compliance_impact := "Resolves data minimization requirements" }

/-- `fix_templates["user_consent"]`. -/
def user_consent_template : FixTemplate :=
  { title := "Deploy Consent Management Platform"
  , description := "Implement proper user consent collection and management"
  , steps :=
      [ "Select consent management tool"
      , "Design consent collection UI"
      , "Integrate with data systems"
      , "Test and deploy" ]
  , estimated_time_hours := 60
  , required_resources := ["frontend_dev", "backend_dev", "legal"]
  , priority := "high"
  , cost_estimate_usd := 15000
  , compliance_impact := "Ensures proper consent collection" }

/-- `fix_templates["ai_transparency"]`. -/
def ai_transparency_template : FixTemplate :=
  { title := "Create AI Model Documentation"
  , description := "Document AI models for transparency requirements"
  , steps :=
      [ "Document model purpose and capabilities"
      , "Describe training data and methodology"
      , "Outline decision-making process"
      , "Create user-facing explanations" ]
  , estimated_time_hours := 30
  , required_resources := ["data_scientist", "technical_writer"]
  , priority := "medium"
  , cost_estimate_usd := 6000
  , compliance_impact := "Meets AI transparency requirements" }

/-- The template-key selection of `_suggest_fixes_with_templates`, applied
to the already-lowercased requirement text (default key "user_consent"). -/
def templateFor (requirement : String) : FixTemplate :=
  if pyIn "data" requirement || pyIn "collection" requirement then
    data_minimization_template
  else if pyIn "ai" requirement || pyIn "model" requirement then
    ai_transparency_template
  else if pyIn "consent" requirement || pyIn "opt-out" requirement then
    user_consent_template
  else user_consent_template

/-- The loop body of `_suggest_fixes_with_templates`: one violation to one
fix, with the size multipliers applied through `int(...)`. -/
def convertViolation (company_size : ℤ) (violation : Violation) : Fix :=
  let requirement := strLower (violation.requirement.getD "")
  let template := templateFor requirement
  let multipliers : ℚ × ℚ :=
    if company_size > 100000 then (2, 3 / 2)
    else if company_size < 1000 then (1 / 2, 4 / 5)
    else (1, 1)
  { violation_id := violation.id.getD "unknown"
  , title := template.title
  , description := template.description
  , steps := template.steps
  , estimated_time_hours := pyInt ((template.estimated_time_hours : ℚ) * multipliers.2)
  , required_resources := template.required_resources
  , priority := some (violation.severity.getD "medium")
  , cost_estimate_usd := pyInt ((template.cost_estimate_usd : ℚ) * multipliers.1)
  , compliance_impact := template.compliance_impact }

/-- `_suggest_fixes_with_templates`: at most the first five violations are
converted. -/
def suggest_fixes_with_templates (violations : List Violation)
    (company_data : CompanyData) : List Fix :=
  let company_size := company_data.user_count.getD 0
  (violations.take 5).map (convertViolation company_size)

/-- `priority_order.get(fix.get("priority", "low"), 3)`. -/
def getPriorityRank (fix : Fix) : ℕ :=
  let p := fix.priority.getD "low"
  if p = "critical" then 0
  else if p = "high" then 1
  else if p = "medium" then 2
  else 3

/-- The comparison under Python's stable `sorted(fixes, key=get_priority)`. -/
def fixLe (a b : Fix) : Prop := getPriorityRank a ≤ getPriorityRank b

instance : DecidableRel fixLe := fun a b =>
  inferInstanceAs (Decidable (getPriorityRank a ≤ getPriorityRank b))

/-- `_prioritize_fixes`: Python's `sorted` is a stable ascending sort by
the priority rank; `List.insertionSort` with `fixLe` has exactly that
behaviour (sorted, a permutation, and stable — proved below). -/
def prioritize_fixes (fixes : List Fix) : List Fix :=
  List.insertionSort fixLe fixes

/-- `suggest_fixes` with no model configured: empty list on no violations,
otherwise the template fallback followed by prioritization (the try/except
never fires on this total path). -/
def suggest_fixes_noModel (audit_results : AuditResult)
    (company_data : CompanyData) : List Fix :=
  let violations := audit_results.violations.getD []
  if violations.isEmpty then []
  else prioritize_fixes (suggest_fixes_with_templates violations company_data)

/-! ## RegulationParser (src/src/regulation_parser.py) -/

/-- The static fallback table's GDPR entry. -/
def gdpr_regulation : Regulation :=
  { regulation_name := "GDPR"
  , key_requirements :=
      [ ⟨"gdpr_1", "Obtain explicit consent for data processing", "user_consent", "high"⟩
      , ⟨"gdpr_2", "Implement data protection by design and by default", "security", "high"⟩
      , ⟨"gdpr_3", "Notify authorities of data breaches within 72 hours", "transparency", "critical"⟩ ]
  , applicable_systems := ["data_collection", "data_storage", "user_interface"]
  , penalties := ⟨4 / 100, "Up to 4% of global annual turnover"⟩ }

/-- The static fallback table's CCPA entry. -/
def ccpa_regulation : Regulation :=
  { regulation_name := "CCPA"
  , key_requirements :=
      [ ⟨"ccpa_1", "Provide right to opt-out of data sale", "user_consent", "high"⟩
      , ⟨"ccpa_2", "Disclose data collection practices", "transparency", "medium"⟩
      , ⟨"ccpa_3", "Honor deletion requests within 45 days", "data_protection", "high"⟩ ]
  , applicable_systems := ["data_collection", "user_interface"]
  , penalties := ⟨25 / 1000, "$2,500-$7,500 per violation"⟩ }

/-- The static fallback table's AI_ACT entry. -/
def ai_act_regulation : Regulation :=
  { regulation_name := "AI_ACT"
  , key_requirements :=
      [ ⟨"aia_1", "Conduct risk assessment for high-risk AI systems", "audit", "critical"⟩
      , ⟨"aia_2", "Ensure human oversight of AI decisions", "transparency", "high"⟩
      , ⟨"aia_3", "Maintain documentation of AI system development", "audit", "medium"⟩ ]
  , applicable_systems := ["ai_models", "data_collection"]
  , penalties := ⟨6 / 100, "Up to 6% of global annual turnover"⟩ }

/-- `_get_default_regulation`: empty requirement list, 4% standard fine. -/
def get_default_regulation (regulation_name : String) : Regulation :=
  { regulation_name := regulation_name
  , key_requirements := []
  , applicable_systems := []
  , penalties := ⟨4 / 100, "Standard fine"⟩ }

/-- `_parse_with_fallback`: `regulations.get(name, default)` over the
static table. -/
def parse_with_fallback (regulation_name : String) : Regulation :=
  if regulation_name = "GDPR" then gdpr_regulation
  else if regulation_name = "CCPA" then ccpa_regulation
  else if regulation_name = "AI_ACT" then ai_act_regulation
  else get_default_regulation regulation_name

/-- `_get_regulation_text`: `regulation_texts.get(name, f"Regulation: {name}")`. -/
def get_regulation_text (regulation_name : String) : String :=
  if regulation_name = "GDPR" then
    "General Data Protection Regulation (GDPR) is a privacy law in the EU..."
  else if regulation_name = "CCPA" then
    "California Consumer Privacy Act (CCPA) gives consumers rights over their personal information..."
  else if regulation_name = "AI_ACT" then
    "EU Artificial Intelligence Act regulates AI systems based on risk levels..."
  else "Regulation: " ++ regulation_name

/-- A configured generation backend for the parser: prompt text in, parsed
regulation out, or a failure (`generate_content_async` error or a JSON
parse error, both caught by `_parse_with_gemini`). -/
abbrev RegBackend := String → Except String Regulation

/-- `_parse_with_gemini`: on any backend or parse failure, fall back to the
static table. -/
def parse_with_gemini (backend : RegBackend)
    (regulation_text regulation_name : String) : Regulation :=
  match backend regulation_text with
  | .ok parsed => parsed
  | .error _ => parse_with_fallback regulation_name

/-- `parse_regulation_from_text`: backend path when a model is configured,
fallback path otherwise; both branches are total, so the outer
try/except-to-default never fires. -/
def parse_regulation_from_text (backend : Option RegBackend)
    (regulation_text regulation_name : String) : Regulation :=
  match backend with
  | some b => parse_with_gemini b regulation_text regulation_name
  | none => parse_with_fallback regulation_name

/-- The parser's in-memory `regulation_cache` (a Python dict; bindings are
only added for names not yet present). -/
abbrev RegCache := List (String × Regulation)

/-- The file store behind `data/regulations/{name.lower()}.json`, as a
function of the regulation name: `none` covers both a missing file and an
unreadable one (the load exception is caught and the code falls through). -/
abbrev RegFileStore := String → Option Regulation

/-- `parse_regulations`: serve each requested name from the cache, else
from the file store, else parse it (backend or fallback); newly resolved
names are cached for the rest of the run. Returns the name → regulation
mapping and the final cache. -/
def parse_regulations (backend : Option RegBackend) (fileStore : RegFileStore) :
    RegCache → List String → RegMap × RegCache
  | cache, [] => ([], cache)
  | cache, reg_name :: rest =>
    match cache.lookup reg_name with
    | some cached =>
      let (m, c) := parse_regulations backend fileStore cache rest
      ((reg_name, cached) :: m, c)
    | none =>
      match fileStore reg_name with
      | some fromFile =>
        let (m, c) := parse_regulations backend fileStore ((reg_name, fromFile) :: cache) rest
        ((reg_name, fromFile) :: m, c)
      | none =>
        let parsed := parse_regulation_from_text backend (get_regulation_text reg_name) reg_name
        let (m, c) := parse_regulations backend fileStore ((reg_name, parsed) :: cache) rest
        ((reg_name, parsed) :: m, c)

/-! ## ComplianceMonitor: report and pipeline
(src/src/compliance_monitor.py) -/

/-- The per-violation block of `_generate_audit_report`'s detailed
findings. -/
def violationLine (idx : ℕ) (v : Violation) : String :=
  "\n" ++ toString idx ++ ". " ++ v.regulation.getD "Unknown" ++ " - "
    ++ v.requirement.getD "Requirement"
    ++ "\n    Severity: " ++ strUpper (v.severity.getD "medium")
    ++ "\n    System Affected: " ++ v.system_affected.getD "N/A"
    ++ "\n    Description: " ++ v.description.getD "No description"
    ++ "\n    Evidence: " ++ v.evidence.getD "No evidence provided"
    ++ "\n"

/-- `enumerate(violations, 1)` rendered through `violationLine`. -/
def violationLines : ℕ → List Violation → String
  | _, [] => ""
  | idx, v :: rest => violationLine idx v ++ violationLines (idx + 1) rest

/-- `_generate_audit_report`: the deterministic text template. `today` is
`datetime.now().strftime('%Y-%m-%d')`; numeric rendering of the score uses
`toString` on the rational in place of Python float formatting. -/
def generate_audit_report (today : String) (company_data : CompanyData)
    (audit_results : AuditResult) (compliance_score : ℚ) (risk_level : String) :
    String :=
  let company_name := company_data.company_name.getD "Unknown Company"
  let violations := audit_results.violations.getD []
  let header :=
    "COMPLIANCE AUDIT REPORT\n======================\n\nCompany: " ++ company_name
      ++ "\nDate: " ++ today
      ++ "\nCompliance Score: " ++ toString compliance_score ++ "/100"
      ++ "\nRisk Level: " ++ strUpper risk_level
      ++ "\n\nSUMMARY\n-------\nTotal Checks Performed: "
      ++ (match audit_results.total_checks with
          | some n => toString n
          | none => "N/A")
      ++ "\nViolations Found: " ++ toString violations.length
      ++ "\nCritical Issues: "
      ++ toString (violations.countP (fun v => v.severity == some "critical"))
      ++ "\nHigh Priority Issues: "
      ++ toString (violations.countP (fun v => v.severity == some "high"))
      ++ "\n\nDETAILED FINDINGS\n-----------------\n"
  let findings :=
    if violations.isEmpty then
      "✅ No violations found. Company is compliant with checked regulations.\n"
    else violationLines 1 violations
  header ++ findings
    ++ "\n\nRECOMMENDATIONS\n---------------\n"
    ++ audit_results.summary.getD "No specific recommendations provided."
    ++ "\n\nNEXT STEPS\n----------\n"
    ++ "1. Review all violations and suggested fixes\n"
    ++ "2. Prioritize fixes based on severity\n"
    ++ "3. Implement corrective actions\n"
    ++ "4. Schedule follow-up audit in 30 days\n"
    ++ "5. Document all compliance efforts\n\n---\n"
    ++ "Generated by Gemini Compliance Monitor\nAI-Powered Regulatory Compliance System"

/-- The dict returned by `analyze_compliance`; every field is optional so
that the two return paths can differ in which keys they carry (the error
path omits `regulations` and `analysis_date` and adds `error`). The
`estimated_fine` key itself holds an optional number (null is a value). -/
structure AnalysisDict where
  compliance_score : Option ℚ
  violations : Option (List Violation)
  suggested_fixes : Option (List Fix)
  audit_report : Option String
  risk_level : Option String
  estimated_fine : Option (Option ℚ)
  regulations : Option (List String)
  analysis_date : Option String
  error : Option String
deriving DecidableEq, Repr

/-- Steps 1–6 of `analyze_compliance`'s try-block, with the three injected
collaborators as fallible functions (an uncaught exception in a step is an
`Except.error`). Returns what the success dict is built from. -/
def runPipeline (parse : List String → Except String RegMap)
    (audit : CompanyData → RegMap → Except String AuditResult)
    (suggest : AuditResult → CompanyData → Except String (List Fix))
    (today : String) (company_data : CompanyData) (regulations : List String) :
    Except String (ℚ × AuditResult × List Fix × String × Option ℚ × String) := do
  let parsed_regulations ← parse regulations
  let audit_results ← audit company_data parsed_regulations
  let compliance_score := calculate_compliance_score audit_results
  let suggested_fixes ← suggest audit_results company_data
  let (risk_level, estimated_fine) :=
    assess_risk audit_results (some (company_data.revenue.getD 0))
  let audit_report :=
    generate_audit_report today company_data audit_results compliance_score risk_level
  pure (compliance_score, audit_results, suggested_fixes, risk_level,
    estimated_fine, audit_report)

/-- `analyze_compliance`: the success dict carries all eight result keys;
the except-branch dict carries the degraded values plus an `error` key but
no `regulations` and no `analysis_date` key. `now` stands for the
`datetime.now()` timestamp string. -/
def analyze_compliance (parse : List String → Except String RegMap)
    (audit : CompanyData → RegMap → Except String AuditResult)
    (suggest : AuditResult → CompanyData → Except String (List Fix))
    (now today : String) (company_data : CompanyData)
    (regulations : List String) : AnalysisDict :=
  match runPipeline parse audit suggest today company_data regulations with
  | .ok (compliance_score, audit_results, suggested_fixes, risk_level,
      estimated_fine, audit_report) =>
    { compliance_score := some (round2 compliance_score)
    , violations := some (audit_results.violations.getD [])
    , suggested_fixes := some suggested_fixes
    , audit_report := some audit_report
    , risk_level := some risk_level
    , estimated_fine := some estimated_fine
    , regulations := some regulations
    , analysis_date := some now
    , error := none }
  | .error e =>
    { compliance_score := some 0
    , violations := some []
    , suggested_fixes := some []
    , audit_report := some ("Analysis failed: " ++ e)
    , risk_level := some "unknown"
    , estimated_fine := some none
    , regulations := none
    , analysis_date := none
    , error := some e }

/-- The whole pipeline with no generation backend configured: the real
parser (cache and file store explicit), the rule-based auditor and the
template-based fix suggester, all of which are total, wired into
`analyze_compliance`. -/
def analyze_noBackend (fileStore : RegFileStore) (cache : RegCache)
    (now today : String) (company_data : CompanyData)
    (regulations : List String) : AnalysisDict :=
  analyze_compliance
    (fun names => .ok (parse_regulations none fileStore cache names).1)
    (fun c m => .ok (audit_systems_noModel c m))
    (fun a c => .ok (suggest_fixes_noModel a c))
    now today company_data regulations

/-- A violation carrying only a "low" severity key, used as concrete
input. -/
def sampleLowViolation : Violation :=
  ⟨none, none, none, some "low", none, none, none⟩

instance : IsTotal Fix fixLe :=
  ⟨fun a b => Nat.le_total (getPriorityRank a) (getPriorityRank b)⟩

instance : IsTrans Fix fixLe := ⟨fun _ _ _ h1 h2 => Nat.le_trans h1 h2⟩

/-- A small company dict used as concrete input. -/
def sampleCompany : CompanyData :=
  ⟨some "TestCo", some ["email"], some "EU", some [], some 10, some 1000⟩

/-- The cache-free resolution of one regulation name: file store first,
then backend/fallback parse. -/
def resolveReg (backend : Option RegBackend) (fileStore : RegFileStore)
    (name : String) : Regulation :=
  match fileStore name with
  | some r => r
  | none => parse_regulation_from_text backend (get_regulation_text name) name

/-- The C8 company: 12 collected data categories, storage "Global", no AI
models, 1000 users, revenue 1,000,000. -/
def acme_company : CompanyData :=
  { company_name := some "Acme"
  , data_collected := some ["d01", "d02", "d03", "d04", "d05", "d06",
      "d07", "d08", "d09", "d10", "d11", "d12"]
  , data_storage_location := some "Global"
  , ai_models_used := some []
  , user_count := some 1000
  , revenue := some 1000000 }

/-- The data-minimization violation the rule audit emits for
`acme_company`. -/
def acme_min_violation : Violation :=
  { id := some "gdpr_data_minimization"
  , regulation := some "GDPR"
  , requirement := some "Data minimization - collect only necessary data"
  , severity := some "medium"
  , system_affected := some "data_collection"
  , description := some "Company collects excessive personal data"
  , evidence := some "Collects 12 data types" }

/-- The international-transfer violation the rule audit emits for
`acme_company`. -/
def acme_transfer_violation : Violation :=
  { id := some "gdpr_international_transfer"
  , regulation := some "GDPR"
  , requirement := some "Adequate protection for international data transfers"
  , severity := some "high"
  , system_affected := some "data_storage"
  , description := some "EU data stored in non-adequate countries"
  , evidence := some "Data stored in: global" }

/-- The audit result the rule audit produces for `acme_company` against
GDPR. -/
def acme_audit : AuditResult :=
  { total_checks := some 7
  , passed_checks := some 3
  , violations := some [acme_min_violation, acme_transfer_violation]
  , summary := some "Found 2 violations in Acme systems."
  , recommendations :=
      [ "Review data collection practices"
      , "Implement consent management system"
      , "Document AI model decision processes" ] }

/-- The C8 analysis: no generation backend, no regulation files, empty
cache. -/
def acme_result : AnalysisDict :=
  analyze_noBackend (fun _ => none) [] "2026-02-01 10:00:00" "2026-02-01"
    acme_company ["GDPR"]

/-! ## Helper lemmas -/

theorem foldl_sub_map_sum (f : Violation → ℚ) :
    ∀ (l : List Violation) (init : ℚ),
      l.foldl (fun s v => s - f v) init = init - (l.map f).sum
  | [], init => by simp
  | v :: t, init => by
    simp only [List.foldl_cons, List.map_cons, List.sum_cons,
      foldl_sub_map_sum f t]
    ring

theorem foldl_add_map_sum (g : Violation → ℕ) :
    ∀ (l : List Violation) (init : ℕ),
      l.foldl (fun s v => s + g v) init = init + (l.map g).sum
  | [], init => by simp
  | v :: t, init => by
    simp only [List.foldl_cons, List.map_cons, List.sum_cons,
      foldl_add_map_sum g t]
    omega

/-! ## Claims -/

/-- C2: `_calculate_compliance_score` starts at 100; with `total_checks`
`n = 0` it returns 100 outright regardless of the violation list; with
`n > 0` it subtracts `10 * severityWeight / n` per violation, where the
weight is critical 5 / high 3 / medium 2 / low 1 and defaults to 1 for an
unknown severity string, and clamps to [0, 100]; hence for every
non-negative `total_checks` and every violation list the score lies in
[0, 100]. -/
theorem claim_C2_computeScore (n : ℕ) (viols : List Violation)
    (pc : Option ℤ) (sm : Option String) (rc : List String) :
    (0 ≤ calculate_compliance_score ⟨some (n : ℤ), pc, some viols, sm, rc⟩ ∧
      calculate_compliance_score ⟨some (n : ℤ), pc, some viols, sm, rc⟩ ≤ 100) ∧
    (n = 0 → calculate_compliance_score ⟨some (n : ℤ), pc, some viols, sm, rc⟩ = 100) ∧
    (0 < n → calculate_compliance_score ⟨some (n : ℤ), pc, some viols, sm, rc⟩ =
      max 0 (min 100
        (100 - (viols.map (fun v => 10 * (severityWeight v : ℚ) / (n : ℚ))).sum))) ∧
    (∀ v : Violation, v.severity = some "critical" → severityWeight v = 5) ∧
    (∀ v : Violation, v.severity = some "high" → severityWeight v = 3) ∧
    (∀ v : Violation, v.severity = some "medium" → severityWeight v = 2) ∧
    (∀ v : Violation, v.severity = some "low" → severityWeight v = 1) ∧
    (∀ (v : Violation) (s : String), v.severity = some s →
      s ∉ (["critical", "high", "medium", "low"] : List String) →
      severityWeight v = 1) := by
  refine ⟨?_, ?_, ?_, ?_, ?_, ?_, ?_, ?_⟩
  · by_cases h : (n : ℤ) = 0
    · simp [calculate_compliance_score, h]
    · simp only [calculate_compliance_score, Option.getD_some, h, if_false]
      refine ⟨le_max_left 0 _, max_le (by norm_num) (min_le_left 100 _)⟩
  · intro h
    simp [calculate_compliance_score, h]
  · intro h
    have hz : ((n : ℤ) : ℚ) = (n : ℚ) := by push_cast; ring
    have hnz : (n : ℤ) ≠ 0 := by exact_mod_cast Nat.pos_iff_ne_zero.mp h
    simp only [calculate_compliance_score, Option.getD_some, hnz, if_false,
      foldl_sub_map_sum, hz]
  · intro v hv; simp [severityWeight, hv]
  · intro v hv; simp [severityWeight, hv]
  · intro v hv; simp [severityWeight, hv]
  · intro v hv; simp [severityWeight, hv]
  · intro v s hv hs
    simp only [List.mem_cons, List.mem_singleton, not_or] at hs
    obtain ⟨h1, h2, h3, h4, -⟩ := hs
    simp [severityWeight, hv, h1, h2, h3, h4]

/-- C10 (implicit): a violation with no `severity` key is treated as
"medium" by both scoring and risk assessment (weight 2, points 3), while a
violation whose severity string is present but unrecognized gets weight 1
in scoring and 0 points in risk assessment; the two cases differ. Shown on
the lookup functions and on `_calculate_compliance_score` / `_assess_risk`
themselves. -/
theorem claim_C10_severity_defaults :
    (∀ v : Violation, v.severity = none →
      severityWeight v = 2 ∧ severityPoints v = 3) ∧
    (∀ (v : Violation) (s : String), v.severity = some s →
      s ∉ (["critical", "high", "medium", "low"] : List String) →
      severityWeight v = 1 ∧ severityPoints v = 0) ∧
    (∀ v : Violation, v.severity = none →
      calculate_compliance_score ⟨some 5, none, some [v], none, []⟩ = 96 ∧
      (assess_risk ⟨none, none, some [v, v], none, []⟩ none).1 = "medium") ∧
    (∀ (v : Violation) (s : String), v.severity = some s →
      s ∉ (["critical", "high", "medium", "low"] : List String) →
      calculate_compliance_score ⟨some 5, none, some [v], none, []⟩ = 98 ∧
      (assess_risk ⟨none, none, some [v, v], none, []⟩ none).1 = "low") := by
  have wnone : ∀ v : Violation, v.severity = none → severityWeight v = 2 := by
    intro v hv; simp [severityWeight, hv]
  have pnone : ∀ v : Violation, v.severity = none → severityPoints v = 3 := by
    intro v hv; simp [severityPoints, hv]
  have wunk : ∀ (v : Violation) (s : String), v.severity = some s →
      s ∉ (["critical", "high", "medium", "low"] : List String) →
      severityWeight v = 1 ∧ severityPoints v = 0 := by
    intro v s hv hs
    simp only [List.mem_cons, List.mem_singleton, not_or] at hs
    obtain ⟨h1, h2, h3, h4, -⟩ := hs
    exact ⟨by simp [severityWeight, hv, h1, h2, h3, h4],
      by simp [severityPoints, hv, h1, h2, h3, h4]⟩
  refine ⟨fun v hv => ⟨wnone v hv, pnone v hv⟩, wunk, ?_, ?_⟩
  · intro v hv
    constructor
    · simp only [calculate_compliance_score, Option.getD_some]
      norm_num [wnone v hv]
    · simp only [assess_risk, Option.getD_some, List.isEmpty_cons,
        List.foldl_cons, List.foldl_nil, pnone v hv]
      norm_num
  · intro v s hv hs
    obtain ⟨hw, hp⟩ := wunk v s hv hs
    constructor
    · simp only [calculate_compliance_score, Option.getD_some]
      norm_num [hw]
    · simp only [assess_risk, Option.getD_some, List.isEmpty_cons,
        List.foldl_cons, List.foldl_nil, hp]
      norm_num

/-- C3 counterexample: with one low violation and revenue 0.123, the code
returns fine `round(0.123 * 0.01, 2) = 0.0`, not `0.123 * 0.01 = 0.00123`
as the claim's "estimated_fine = revenue * fine_percentage" states. -/
theorem claim_C3_counterexample :
    assess_risk ⟨none, none, some [sampleLowViolation], none, []⟩
        (some (123 / 1000)) = ("low", some 0) ∧
    assess_risk ⟨none, none, some [sampleLowViolation], none, []⟩
        (some (123 / 1000)) ≠ ("low", some ((123 / 1000) * (1 / 100))) := by
  have h : assess_risk ⟨none, none, some [sampleLowViolation], none, []⟩
      (some (123 / 1000)) = ("low", some 0) := by
    simp [assess_risk, sampleLowViolation, severityPoints, pyTruthyQ,
      round2, round_eq]
    norm_num
  refine ⟨h, ?_⟩
  rw [h]
  intro hc
  have := congrArg Prod.snd hc
  simp only [Option.some_inj] at this
  norm_num at this

/-- C3 (amended: the fine is `revenue * fine_percentage` rounded to two
decimal places): `_assess_risk` returns ("low", 0.0) on an empty violation
list regardless of revenue; otherwise it sums severity points
critical 10 / high 6 / medium 3 / low 1 (0 for an unrecognized severity),
picks the tier and fine percentage by threshold on the sum (≥20 critical
0.06, ≥10 high 0.04, ≥5 medium 0.02, else low 0.01), and returns
`round(revenue * pct, 2)` when revenue is truthy and null otherwise. -/
theorem claim_C3_assessRisk (tc pc : Option ℤ) (viols : List Violation)
    (sm : Option String) (rc : List String) (revenue : Option ℚ) :
    (viols = [] → assess_risk ⟨tc, pc, some viols, sm, rc⟩ revenue = ("low", some 0)) ∧
    (viols ≠ [] →
      (assess_risk ⟨tc, pc, some viols, sm, rc⟩ revenue).1 =
        (if (viols.map (fun v => severityPoints v)).sum ≥ 20 then "critical"
         else if (viols.map (fun v => severityPoints v)).sum ≥ 10 then "high"
         else if (viols.map (fun v => severityPoints v)).sum ≥ 5 then "medium"
         else "low") ∧
      (∀ r : ℚ, revenue = some r → r ≠ 0 →
        (assess_risk ⟨tc, pc, some viols, sm, rc⟩ revenue).2 =
          some (round2 (r *
            (if (viols.map (fun v => severityPoints v)).sum ≥ 20 then 6 / 100
             else if (viols.map (fun v => severityPoints v)).sum ≥ 10 then 4 / 100
             else if (viols.map (fun v => severityPoints v)).sum ≥ 5 then 2 / 100
             else 1 / 100)))) ∧
      (revenue = none ∨ revenue = some 0 →
        (assess_risk ⟨tc, pc, some viols, sm, rc⟩ revenue).2 = none)) ∧
    (∀ v : Violation, v.severity = some "critical" → severityPoints v = 10) ∧
    (∀ v : Violation, v.severity = some "high" → severityPoints v = 6) ∧
    (∀ v : Violation, v.severity = some "medium" → severityPoints v = 3) ∧
    (∀ v : Violation, v.severity = some "low" → severityPoints v = 1) ∧
    (∀ (v : Violation) (s : String), v.severity = some s →
      s ∉ (["critical", "high", "medium", "low"] : List String) →
      severityPoints v = 0) := by
  refine ⟨?_, ?_, ?_, ?_, ?_, ?_, ?_⟩
  · intro h; simp [assess_risk, h]
  · intro h
    have hemp : viols.isEmpty = false := by
      cases viols with
      | nil => exact absurd rfl h
      | cons a t => rfl
    have hfold : viols.foldl (fun s v => s + severityPoints v) 0 =
        (viols.map (fun v => severityPoints v)).sum := by
      simpa using foldl_add_map_sum (fun v => severityPoints v) viols 0
    have hpct :
        (if (viols.map (fun v => severityPoints v)).sum ≥ 20 then ((6 : ℚ) / 100)
         else if (viols.map (fun v => severityPoints v)).sum ≥ 10 then 4 / 100
         else if (viols.map (fun v => severityPoints v)).sum ≥ 5 then 2 / 100
         else 1 / 100) ≠ 0 := by
      split_ifs <;> norm_num
    refine ⟨?_, ?_, ?_⟩
    · simp only [assess_risk, Option.getD_some, hemp, Bool.false_eq_true,
        if_false, hfold]
      split_ifs <;> rfl
    · intro r hr hrne
      subst hr
      have htr : pyTruthyQ (some r) = true := by simp [pyTruthyQ, hrne]
      simp only [assess_risk, Option.getD_some, hemp, Bool.false_eq_true,
        if_false, hfold, htr, if_true]
      by_cases h1 : 20 ≤ (viols.map (fun v => severityPoints v)).sum
      · have hm : r * ((6 : ℚ) / 100) ≠ 0 := mul_ne_zero hrne (by norm_num)
        simp [ge_iff_le, h1, pyTruthyQ, hm]
      · by_cases h2 : 10 ≤ (viols.map (fun v => severityPoints v)).sum
        · have hm : r * ((4 : ℚ) / 100) ≠ 0 := mul_ne_zero hrne (by norm_num)
          simp [ge_iff_le, h1, h2, pyTruthyQ, hm]
        · by_cases h3 : 5 ≤ (viols.map (fun v => severityPoints v)).sum
          · have hm : r * ((2 : ℚ) / 100) ≠ 0 := mul_ne_zero hrne (by norm_num)
            simp [ge_iff_le, h1, h2, h3, pyTruthyQ, hm]
          · have hm : r * ((1 : ℚ) / 100) ≠ 0 := mul_ne_zero hrne (by norm_num)
            simp [ge_iff_le, h1, h2, h3, pyTruthyQ, hm, hrne]
    · intro hr
      have htr : pyTruthyQ revenue = false := by
        rcases hr with h | h <;> simp [pyTruthyQ, h]
      simp only [assess_risk, Option.getD_some, hemp, Bool.false_eq_true,
        if_false, htr]
      have hn : pyTruthyQ none = false := rfl
      simp only [hn, Bool.false_eq_true, if_false]
  · intro v hv; simp [severityPoints, hv]
  · intro v hv; simp [severityPoints, hv]
  · intro v hv; simp [severityPoints, hv]
  · intro v hv; simp [severityPoints, hv]
  · intro v s hv hs
    simp only [List.mem_cons, List.mem_singleton, not_or] at hs
    obtain ⟨h1, h2, h3, h4, -⟩ := hs
    simp [severityPoints, hv, h1, h2, h3, h4]

/-- C4 counterexample: with an empty violation list the code returns
("low", 0.0) — the fine is the number 0.0, not null — even though revenue
is unknown, so the claimed universal null does not hold for every
violation list. -/
theorem claim_C4_counterexample :
    (assess_risk ⟨none, none, some [], none, []⟩ none).2 = some 0 ∧
    some (0 : ℚ) ≠ (none : Option ℚ) := by
  exact ⟨by simp [assess_risk], by simp⟩

/-- C4 (amended: restricted to a non-empty violation list): whenever at
least one violation is present and revenue is unknown or zero, the
estimated fine is null; with no violations the assessment returns the
number 0.0 for the fine regardless of revenue. -/
theorem claim_C4_fine_null (tc pc : Option ℤ) (viols : List Violation)
    (sm : Option String) (rc : List String) (revenue : Option ℚ)
    (hne : viols ≠ []) (hrev : revenue = none ∨ revenue = some 0) :
    (assess_risk ⟨tc, pc, some viols, sm, rc⟩ revenue).2 = none ∧
    (assess_risk ⟨tc, pc, some [], sm, rc⟩ revenue).2 = some 0 := by
  have hemp : viols.isEmpty = false := by
    cases viols with
    | nil => exact absurd rfl hne
    | cons a t => rfl
  have htr : pyTruthyQ revenue = false := by
    rcases hrev with h | h <;> simp [pyTruthyQ, h]
  constructor
  · simp only [assess_risk, Option.getD_some, hemp, Bool.false_eq_true,
      if_false, htr]
    have hn : pyTruthyQ none = false := rfl
    simp only [hn, Bool.false_eq_true, if_false]
  · simp [assess_risk]

/-- C4 witness: one low-severity violation and unknown revenue. -/
theorem claim_C4_witness :
    (assess_risk ⟨none, none, some [sampleLowViolation], none, []⟩ none).2 = none ∧
    (assess_risk ⟨none, none, some [], none, []⟩ none).2 = some 0 :=
  claim_C4_fine_null none none [sampleLowViolation] none [] none
    (by simp) (Or.inl rfl)

theorem filter_orderedInsert (k : ℕ) (a : Fix) :
    ∀ l : List Fix,
      (List.orderedInsert fixLe a l).filter (fun f => getPriorityRank f == k) =
        if getPriorityRank a == k then
          a :: l.filter (fun f => getPriorityRank f == k)
        else l.filter (fun f => getPriorityRank f == k)
  | [] => by
    by_cases h : getPriorityRank a == k <;>
      simp [List.orderedInsert, List.filter_cons, h]
  | b :: l => by
    by_cases hab : fixLe a b
    · by_cases h : getPriorityRank a == k <;>
        simp [List.orderedInsert, if_pos hab, List.filter_cons, h]
    · have hlt : getPriorityRank b < getPriorityRank a :=
        Nat.lt_of_not_le (fun h => hab h)
      by_cases hak : getPriorityRank a == k
      · have hbk : (getPriorityRank b == k) = false := by
          have h1 : getPriorityRank a = k := by simpa using hak
          have h2 : getPriorityRank b ≠ k := by omega
          simpa using h2
        simp [List.orderedInsert, if_neg hab, List.filter_cons, hak, hbk,
          filter_orderedInsert k a l]
      · by_cases hbk : getPriorityRank b == k <;>
          simp [List.orderedInsert, if_neg hab, List.filter_cons, hak, hbk,
            filter_orderedInsert k a l]

theorem filter_insertionSort (k : ℕ) :
    ∀ l : List Fix,
      (List.insertionSort fixLe l).filter (fun f => getPriorityRank f == k) =
        l.filter (fun f => getPriorityRank f == k)
  | [] => rfl
  | a :: l => by
    by_cases h : getPriorityRank a == k <;>
      simp [List.insertionSort, filter_orderedInsert,
        filter_insertionSort k l, List.filter_cons, h]

/-- C7: `_prioritize_fixes` (Python's stable `sorted` keyed on the
priority rank critical 0 / high 1 / medium 2 / low 3, with 3 for a missing
or unknown priority) returns a permutation of its input that is sorted
ascending by rank, and fixes of equal rank keep their input order: for
every rank the subsequence with that rank is unchanged. -/
theorem claim_C7_prioritize (fixes : List Fix) :
    List.Sorted fixLe (prioritize_fixes fixes) ∧
    List.Perm (prioritize_fixes fixes) fixes ∧
    (∀ k : ℕ, (prioritize_fixes fixes).filter (fun f => getPriorityRank f == k) =
      fixes.filter (fun f => getPriorityRank f == k)) ∧
    (∀ f : Fix, f.priority = some "critical" → getPriorityRank f = 0) ∧
    (∀ f : Fix, f.priority = some "high" → getPriorityRank f = 1) ∧
    (∀ f : Fix, f.priority = some "medium" → getPriorityRank f = 2) ∧
    (∀ f : Fix, f.priority = some "low" → getPriorityRank f = 3) := by
  refine ⟨List.sorted_insertionSort fixLe fixes,
    List.perm_insertionSort fixLe fixes,
    fun k => filter_insertionSort k fixes, ?_, ?_, ?_, ?_⟩
  · intro f hf; simp [getPriorityRank, hf]
  · intro f hf; simp [getPriorityRank, hf]
  · intro f hf; simp [getPriorityRank, hf]
  · intro f hf; simp [getPriorityRank, hf]

/-- C5: the rule-based audit emits exactly the four rule violations, each
check evaluated independently per regulation name present in the mapping:
`gdpr_data_minimization` (medium) iff GDPR is present and more than 10
data categories are collected; `gdpr_international_transfer` (high) iff
GDPR is present and the lowercased storage location contains "global" or
"usa"; `ccpa_threshold` (high) iff CCPA is present and `user_count`
exceeds 50000; `aia_transparency` (medium) iff AI_ACT is present and
`ai_models_used` is non-empty; `total_checks` is the violation count + 5
and `passed_checks` is `max 0 (5 - count)`. -/
theorem mem_ite_nil {c : Prop} [Decidable c] {l : List Violation} {v : Violation} :
    (v ∈ if c then l else []) ↔ c ∧ v ∈ l := by
  split_ifs with h <;> simp [h]

theorem mem_check_gdpr (c : CompanyData) (v : Violation)
    (hv : v ∈ check_gdpr_compliance c) :
    (v.id = some "gdpr_data_minimization" ∧ v.severity = some "medium") ∨
    (v.id = some "gdpr_international_transfer" ∧ v.severity = some "high") := by
  revert hv
  simp only [check_gdpr_compliance, List.mem_append, mem_ite_nil,
    List.mem_singleton]
  rintro (⟨-, rfl⟩ | ⟨-, rfl⟩) <;> simp

theorem mem_check_ccpa (c : CompanyData) (v : Violation)
    (hv : v ∈ check_ccpa_compliance c) :
    v.id = some "ccpa_threshold" ∧ v.severity = some "high" := by
  revert hv
  simp only [check_ccpa_compliance, mem_ite_nil, List.mem_singleton]
  rintro ⟨-, rfl⟩
  simp

theorem mem_check_ai (c : CompanyData) (v : Violation)
    (hv : v ∈ check_ai_act_compliance c) :
    v.id = some "aia_transparency" ∧ v.severity = some "medium" := by
  revert hv
  simp only [check_ai_act_compliance, mem_ite_nil, List.mem_singleton]
  rintro ⟨-, rfl⟩
  simp

theorem gdprMin_gdpr_iff (c : CompanyData) :
    (∃ v ∈ check_gdpr_compliance c,
        v.id = some "gdpr_data_minimization" ∧ v.severity = some "medium") ↔
      10 < (c.data_collected.getD []).length := by
  simp only [check_gdpr_compliance]
  split_ifs <;> simp_all

theorem gdprTr_gdpr_iff (c : CompanyData) :
    (∃ v ∈ check_gdpr_compliance c,
        v.id = some "gdpr_international_transfer" ∧ v.severity = some "high") ↔
      (pyIn "global" (strLower (c.data_storage_location.getD "")) = true ∨
       pyIn "usa" (strLower (c.data_storage_location.getD "")) = true) := by
  simp only [check_gdpr_compliance]
  split_ifs with h1 h2 <;> simp_all

theorem ccpaThr_ccpa_iff (c : CompanyData) :
    (∃ v ∈ check_ccpa_compliance c,
        v.id = some "ccpa_threshold" ∧ v.severity = some "high") ↔
      50000 < c.user_count.getD 0 := by
  simp only [check_ccpa_compliance]
  split_ifs <;> simp_all

theorem aiaTr_ai_iff (c : CompanyData) :
    (∃ v ∈ check_ai_act_compliance c,
        v.id = some "aia_transparency" ∧ v.severity = some "medium") ↔
      c.ai_models_used.getD [] ≠ [] := by
  simp only [check_ai_act_compliance]
  split_ifs <;> simp_all

theorem mem_audit_violations (c : CompanyData) (regs : RegMap) (v : Violation) :
    v ∈ (audit_with_rules c regs).violations.getD [] ↔
      (hasKey regs "GDPR" = true ∧ v ∈ check_gdpr_compliance c) ∨
      (hasKey regs "CCPA" = true ∧ v ∈ check_ccpa_compliance c) ∨
      (hasKey regs "AI_ACT" = true ∧ v ∈ check_ai_act_compliance c) := by
  simp only [audit_with_rules, Option.getD_some, List.mem_append, mem_ite_nil,
    or_assoc]

theorem claim_C5_rule_audit (company_data : CompanyData) (regulations : RegMap) :
    ((∃ v ∈ (audit_with_rules company_data regulations).violations.getD [],
        v.id = some "gdpr_data_minimization" ∧ v.severity = some "medium") ↔
      (hasKey regulations "GDPR" = true ∧
        10 < (company_data.data_collected.getD []).length)) ∧
    ((∃ v ∈ (audit_with_rules company_data regulations).violations.getD [],
        v.id = some "gdpr_international_transfer" ∧ v.severity = some "high") ↔
      (hasKey regulations "GDPR" = true ∧
        (pyIn "global" (strLower (company_data.data_storage_location.getD "")) = true ∨
         pyIn "usa" (strLower (company_data.data_storage_location.getD "")) = true))) ∧
    ((∃ v ∈ (audit_with_rules company_data regulations).violations.getD [],
        v.id = some "ccpa_threshold" ∧ v.severity = some "high") ↔
      (hasKey regulations "CCPA" = true ∧ 50000 < company_data.user_count.getD 0)) ∧
    ((∃ v ∈ (audit_with_rules company_data regulations).violations.getD [],
        v.id = some "aia_transparency" ∧ v.severity = some "medium") ↔
      (hasKey regulations "AI_ACT" = true ∧
        company_data.ai_models_used.getD [] ≠ [])) ∧
    (∀ v ∈ (audit_with_rules company_data regulations).violations.getD [],
      (v.id = some "gdpr_data_minimization" ∧ v.severity = some "medium") ∨
      (v.id = some "gdpr_international_transfer" ∧ v.severity = some "high") ∨
      (v.id = some "ccpa_threshold" ∧ v.severity = some "high") ∨
      (v.id = some "aia_transparency" ∧ v.severity = some "medium")) ∧
    (audit_with_rules company_data regulations).total_checks =
      some ((((audit_with_rules company_data regulations).violations.getD []).length : ℤ) + 5) ∧
    (audit_with_rules company_data regulations).passed_checks =
      some (max 0 (5 - (((audit_with_rules company_data regulations).violations.getD []).length : ℤ))) := by
  refine ⟨?_, ?_, ?_, ?_, ?_, rfl, rfl⟩
  · constructor
    · rintro ⟨v, hv, hP⟩
      rcases (mem_audit_violations company_data regulations v).mp hv with
        ⟨hG, hm⟩ | ⟨hC, hm⟩ | ⟨hA, hm⟩
      · exact ⟨hG, (gdprMin_gdpr_iff company_data).mp ⟨v, hm, hP⟩⟩
      · obtain ⟨hid, -⟩ := mem_check_ccpa company_data v hm
        exact absurd (hid.symm.trans hP.1) (by simp)
      · obtain ⟨hid, -⟩ := mem_check_ai company_data v hm
        exact absurd (hid.symm.trans hP.1) (by simp)
    · rintro ⟨hG, hlen⟩
      obtain ⟨v, hm, hP⟩ := (gdprMin_gdpr_iff company_data).mpr hlen
      exact ⟨v, (mem_audit_violations company_data regulations v).mpr
        (Or.inl ⟨hG, hm⟩), hP⟩
  · constructor
    · rintro ⟨v, hv, hP⟩
      rcases (mem_audit_violations company_data regulations v).mp hv with
        ⟨hG, hm⟩ | ⟨hC, hm⟩ | ⟨hA, hm⟩
      · exact ⟨hG, (gdprTr_gdpr_iff company_data).mp ⟨v, hm, hP⟩⟩
      · obtain ⟨hid, -⟩ := mem_check_ccpa company_data v hm
        exact absurd (hid.symm.trans hP.1) (by simp)
      · obtain ⟨hid, -⟩ := mem_check_ai company_data v hm
        exact absurd (hid.symm.trans hP.1) (by simp)
    · rintro ⟨hG, hcond⟩
      obtain ⟨v, hm, hP⟩ := (gdprTr_gdpr_iff company_data).mpr hcond
      exact ⟨v, (mem_audit_violations company_data regulations v).mpr
        (Or.inl ⟨hG, hm⟩), hP⟩
  · constructor
    · rintro ⟨v, hv, hP⟩
      rcases (mem_audit_violations company_data regulations v).mp hv with
        ⟨hG, hm⟩ | ⟨hC, hm⟩ | ⟨hA, hm⟩
      · rcases mem_check_gdpr company_data v hm with ⟨hid, -⟩ | ⟨hid, -⟩ <;>
          exact absurd (hid.symm.trans hP.1) (by simp)
      · exact ⟨hC, (ccpaThr_ccpa_iff company_data).mp ⟨v, hm, hP⟩⟩
      · obtain ⟨hid, -⟩ := mem_check_ai company_data v hm
        exact absurd (hid.symm.trans hP.1) (by simp)
    · rintro ⟨hC, hcond⟩
      obtain ⟨v, hm, hP⟩ := (ccpaThr_ccpa_iff company_data).mpr hcond
      exact ⟨v, (mem_audit_violations company_data regulations v).mpr
        (Or.inr (Or.inl ⟨hC, hm⟩)), hP⟩
  · constructor
    · rintro ⟨v, hv, hP⟩
      rcases (mem_audit_violations company_data regulations v).mp hv with
        ⟨hG, hm⟩ | ⟨hC, hm⟩ | ⟨hA, hm⟩
      · rcases mem_check_gdpr company_data v hm with ⟨hid, -⟩ | ⟨hid, -⟩ <;>
          exact absurd (hid.symm.trans hP.1) (by simp)
      · obtain ⟨hid, -⟩ := mem_check_ccpa company_data v hm
        exact absurd (hid.symm.trans hP.1) (by simp)
      · exact ⟨hA, (aiaTr_ai_iff company_data).mp ⟨v, hm, hP⟩⟩
    · rintro ⟨hA, hcond⟩
      obtain ⟨v, hm, hP⟩ := (aiaTr_ai_iff company_data).mpr hcond
      exact ⟨v, (mem_audit_violations company_data regulations v).mpr
        (Or.inr (Or.inr ⟨hA, hm⟩)), hP⟩
  · intro v hv
    rcases (mem_audit_violations company_data regulations v).mp hv with
      ⟨-, hm⟩ | ⟨-, hm⟩ | ⟨-, hm⟩
    · rcases mem_check_gdpr company_data v hm with h | h
      · exact Or.inl h
      · exact Or.inr (Or.inl h)
    · exact Or.inr (Or.inr (Or.inl (mem_check_ccpa company_data v hm)))
    · exact Or.inr (Or.inr (Or.inr (mem_check_ai company_data v hm)))

theorem pyInt_intCast (n : ℤ) : pyInt ((n : ℤ) : ℚ) = n := by
  simp [pyInt, Rat.num_intCast, Rat.den_intCast]

theorem pyInt_two_mul (b : ℤ) : pyInt ((b : ℚ) * 2) = 2 * b := by
  have h : ((b : ℚ) * 2) = (((2 * b : ℤ) : ℤ) : ℚ) := by push_cast; ring
  rw [h, pyInt_intCast]

theorem pyInt_mul_one (b : ℤ) : pyInt ((b : ℚ) * 1) = b := by
  have h : ((b : ℚ) * 1) = ((b : ℤ) : ℚ) := by ring
  rw [h, pyInt_intCast]

/-- C6: `suggest_fixes` returns [] when the audit has no violations; the
template fallback converts at most the first 5 violations; the template is
chosen by scanning the lowercased requirement text in order
data/collection → data-minimization, else ai/model → AI-transparency, else
consent-platform (also the default), so "AI model" maps to the
AI-transparency template; cost and time are scaled ×2.0/×1.5 when
`user_count > 100000` (cost exactly doubles), ×0.5/×0.8 when
`user_count < 1000`, and ×1 otherwise. -/
theorem claim_C6_suggest_fixes (audit_results : AuditResult)
    (company_data : CompanyData) (viols : List Violation) (size : ℤ) :
    (audit_results.violations.getD [] = [] →
      suggest_fixes_noModel audit_results company_data = []) ∧
    ((suggest_fixes_with_templates viols company_data).length = min viols.length 5) ∧
    (suggest_fixes_with_templates viols company_data =
      (viols.take 5).map (convertViolation (company_data.user_count.getD 0))) ∧
    (∀ req : String,
      ((pyIn "data" req || pyIn "collection" req) = true →
        templateFor req = data_minimization_template) ∧
      ((pyIn "data" req || pyIn "collection" req) = false →
        (pyIn "ai" req || pyIn "model" req) = true →
        templateFor req = ai_transparency_template) ∧
      ((pyIn "data" req || pyIn "collection" req) = false →
        (pyIn "ai" req || pyIn "model" req) = false →
        templateFor req = user_consent_template)) ∧
    (templateFor (strLower "AI model") = ai_transparency_template) ∧
    (∀ v : Violation, 100000 < size →
      (convertViolation size v).cost_estimate_usd =
        2 * (templateFor (strLower (v.requirement.getD ""))).cost_estimate_usd ∧
      (convertViolation size v).estimated_time_hours =
        pyInt (((templateFor (strLower (v.requirement.getD ""))).estimated_time_hours : ℚ)
          * (3 / 2))) ∧
    (∀ v : Violation, ¬ 100000 < size → size < 1000 →
      (convertViolation size v).cost_estimate_usd =
        pyInt (((templateFor (strLower (v.requirement.getD ""))).cost_estimate_usd : ℚ)
          * (1 / 2)) ∧
      (convertViolation size v).estimated_time_hours =
        pyInt (((templateFor (strLower (v.requirement.getD ""))).estimated_time_hours : ℚ)
          * (4 / 5))) ∧
    (∀ v : Violation, ¬ 100000 < size → ¬ size < 1000 →
      (convertViolation size v).cost_estimate_usd =
        (templateFor (strLower (v.requirement.getD ""))).cost_estimate_usd ∧
      (convertViolation size v).estimated_time_hours =
        (templateFor (strLower (v.requirement.getD ""))).estimated_time_hours) := by
  refine ⟨?_, ?_, rfl, ?_, ?_, ?_, ?_, ?_⟩
  · intro h
    simp [suggest_fixes_noModel, h]
  · simp [suggest_fixes_with_templates, Nat.min_comm]
  · intro req
    refine ⟨?_, ?_, ?_⟩
    · intro h1
      simp [templateFor, h1]
    · intro h1 h2
      simp [templateFor, h1, h2]
    · intro h1 h2
      simp [templateFor, h1, h2]
  · rfl
  · intro v hsz
    constructor
    · simp only [convertViolation, if_pos hsz]
      exact pyInt_two_mul _
    · simp [convertViolation, if_pos hsz]
  · intro v hsz hsm
    refine ⟨?_, ?_⟩ <;> simp [convertViolation, if_neg hsz, if_pos hsm]
  · intro v hsz hsm
    refine ⟨?_, ?_⟩ <;>
      simp [convertViolation, if_neg hsz, if_neg hsm, pyInt_mul_one, pyInt_intCast]

/-- C1 counterexample: when the parsing step raises, the degraded result
dict has no `regulations` key and no `analysis_date` key, so it is not an
AnalysisResult containing all fields (echoed regulation list, analysis
timestamp) as the claim states for every case. -/
theorem claim_C1_counterexample :
    (analyze_compliance (fun _ => .error "parse failure")
        (fun c m => .ok (audit_systems_noModel c m))
        (fun a c => .ok (suggest_fixes_noModel a c))
        "2026-02-01 00:00:00" "2026-02-01" sampleCompany ["GDPR"]).regulations
      = none ∧
    (analyze_compliance (fun _ => .error "parse failure")
        (fun c m => .ok (audit_systems_noModel c m))
        (fun a c => .ok (suggest_fixes_noModel a c))
        "2026-02-01 00:00:00" "2026-02-01" sampleCompany ["GDPR"]).analysis_date
      = none := by
  constructor <;> rfl

/-- C1 (amended: the degraded dict omits the echoed regulation list and the
timestamp): `analyze_compliance` is total — it returns a dict for every
input and every behaviour of the three injected steps; when any step
raises, the result carries score 0, empty violations, empty fixes, risk
"unknown", fine null and an `audit_report` containing the error message,
plus an `error` key, and has no `regulations` or `analysis_date` key; when
no step raises, all eight fields of the AnalysisResult data model are
present, with the regulation list echoed and the timestamp set. -/
theorem claim_C1_error_handling
    (parse : List String → Except String RegMap)
    (audit : CompanyData → RegMap → Except String AuditResult)
    (suggest : AuditResult → CompanyData → Except String (List Fix))
    (now today : String) (company_data : CompanyData)
    (regulations : List String) :
    (∀ e, runPipeline parse audit suggest today company_data regulations = .error e →
      analyze_compliance parse audit suggest now today company_data regulations =
        { compliance_score := some 0
        , violations := some []
        , suggested_fixes := some []
        , audit_report := some ("Analysis failed: " ++ e)
        , risk_level := some "unknown"
        , estimated_fine := some none
        , regulations := none
        , analysis_date := none
        , error := some e }) ∧
    (∀ x, runPipeline parse audit suggest today company_data regulations = .ok x →
      (analyze_compliance parse audit suggest now today company_data
          regulations).compliance_score.isSome = true ∧
      (analyze_compliance parse audit suggest now today company_data
          regulations).violations.isSome = true ∧
      (analyze_compliance parse audit suggest now today company_data
          regulations).suggested_fixes.isSome = true ∧
      (analyze_compliance parse audit suggest now today company_data
          regulations).audit_report.isSome = true ∧
      (analyze_compliance parse audit suggest now today company_data
          regulations).risk_level.isSome = true ∧
      (analyze_compliance parse audit suggest now today company_data
          regulations).estimated_fine.isSome = true ∧
      (analyze_compliance parse audit suggest now today company_data
          regulations).regulations = some regulations ∧
      (analyze_compliance parse audit suggest now today company_data
          regulations).analysis_date = some now ∧
      (analyze_compliance parse audit suggest now today company_data
          regulations).error = none) := by
  constructor
  · intro e he
    unfold analyze_compliance
    rw [he]
  · intro x hx
    obtain ⟨s, a, f, r, fine, rep⟩ := x
    unfold analyze_compliance
    rw [hx]
    simp

/-! ## RegulationParser lookup lemmas (claim C9) -/

theorem lookup_cons_self (k : String) (v : Regulation)
    (l : List (String × Regulation)) :
    List.lookup k ((k, v) :: l) = some v := by
  simp [List.lookup]

theorem lookup_cons_ne (k k' : String) (hne : k' ≠ k) (v : Regulation)
    (l : List (String × Regulation)) :
    List.lookup k' ((k, v) :: l) = List.lookup k' l := by
  have hb : (k' == k) = false := beq_eq_false_iff_ne.mpr hne
  simp [List.lookup, hb]

theorem parse_regulations_lookup (backend : Option RegBackend)
    (fileStore : RegFileStore) :
    ∀ (names : List String) (cache : RegCache) (name : String),
      name ∈ names →
      (parse_regulations backend fileStore cache names).1.lookup name =
        some ((cache.lookup name).getD (resolveReg backend fileStore name)) := by
  intro names
  induction names with
  | nil => intro cache name h; simp at h
  | cons n0 rest ih =>
    intro cache name hmem
    by_cases heq : name = n0
    · subst heq
      cases hc : cache.lookup name with
      | some c0 =>
        simp [parse_regulations, hc, lookup_cons_self]
      | none =>
        cases hf : fileStore name with
        | some f =>
          simp [parse_regulations, hc, hf, lookup_cons_self, resolveReg]
        | none =>
          simp [parse_regulations, hc, hf, lookup_cons_self, resolveReg]
    · have hmem' : name ∈ rest := by
        rcases List.mem_cons.mp hmem with h | h
        · exact absurd h heq
        · exact h
      cases hc : cache.lookup n0 with
      | some c0 =>
        simp [parse_regulations, hc, lookup_cons_ne n0 name heq,
          ih cache name hmem']
      | none =>
        cases hf : fileStore n0 with
        | some f =>
          have hcl : ((n0, f) :: cache).lookup name = cache.lookup name :=
            lookup_cons_ne n0 name heq f cache
          simp [parse_regulations, hc, hf, lookup_cons_ne n0 name heq,
            ih ((n0, f) :: cache) name hmem', hcl]
        | none =>
          have hcl : ∀ p, ((n0, p) :: cache).lookup name = cache.lookup name :=
            fun p => lookup_cons_ne n0 name heq p cache
          simp [parse_regulations, hc, hf, lookup_cons_ne n0 name heq,
            ih _ name hmem', hcl]

/-- C9: `parse_regulations` raises no error: for every requested name the
returned mapping has a value; a name already in the instance cache is
served from the cache; and a name that is not cached, not in the static
fallback table (GDPR, CCPA, AI_ACT) and not resolvable from the file store
or the backend resolves to the default regulation — empty
`key_requirements` and a 4% `max_fine_percentage`. -/
theorem claim_C9_parse_regulations (backend : Option RegBackend)
    (fileStore : RegFileStore) (cache : RegCache) (names : List String)
    (name : String) (hmem : name ∈ names) :
    (∃ reg, (parse_regulations backend fileStore cache names).1.lookup name
      = some reg) ∧
    (∀ reg, cache.lookup name = some reg →
      (parse_regulations backend fileStore cache names).1.lookup name
        = some reg) ∧
    (cache.lookup name = none → fileStore name = none →
      name ∉ (["GDPR", "CCPA", "AI_ACT"] : List String) →
      (∀ (b : RegBackend) (r : Regulation), backend = some b →
        b (get_regulation_text name) ≠ .ok r) →
      (parse_regulations backend fileStore cache names).1.lookup name
        = some (get_default_regulation name) ∧
      (get_default_regulation name).key_requirements = [] ∧
      (get_default_regulation name).penalties.max_fine_percentage = 4 / 100) := by
  refine ⟨?_, ?_, ?_⟩
  · exact ⟨_, parse_regulations_lookup backend fileStore names cache name hmem⟩
  · intro reg hreg
    rw [parse_regulations_lookup backend fileStore names cache name hmem, hreg]
    rfl
  · intro hc hf hstatic hb
    have hns : name ≠ "GDPR" ∧ name ≠ "CCPA" ∧ name ≠ "AI_ACT" := by
      simp only [List.mem_cons, List.mem_singleton, not_or] at hstatic
      exact ⟨hstatic.1, hstatic.2.1, hstatic.2.2.1⟩
    have hres : resolveReg backend fileStore name = get_default_regulation name := by
      unfold resolveReg
      rw [hf]
      cases backend with
      | none =>
        simp [parse_regulation_from_text, parse_with_fallback,
          hns.1, hns.2.1, hns.2.2]
      | some b =>
        cases hcall : b (get_regulation_text name) with
        | ok r => exact absurd hcall (fun h => hb b r rfl h)
        | error e =>
          simp [parse_regulation_from_text, parse_with_gemini, hcall,
            parse_with_fallback, hns.1, hns.2.1, hns.2.2]
    refine ⟨?_, rfl, rfl⟩
    rw [parse_regulations_lookup backend fileStore names cache name hmem, hc,
      hres]
    rfl

/-- C9 witness: an uncached name outside the static table, with no file
and no backend, resolves to the default regulation. -/
theorem claim_C9_witness :
    ("HIPAA" ∈ (["HIPAA"] : List String)) ∧
    ((∃ reg, (parse_regulations none (fun _ => none) [] ["HIPAA"]).1.lookup "HIPAA"
      = some reg) ∧
    (∀ reg, ([] : RegCache).lookup "HIPAA" = some reg →
      (parse_regulations none (fun _ => none) [] ["HIPAA"]).1.lookup "HIPAA"
        = some reg) ∧
    (([] : RegCache).lookup "HIPAA" = none → (fun _ => none : RegFileStore) "HIPAA" = none →
      "HIPAA" ∉ (["GDPR", "CCPA", "AI_ACT"] : List String) →
      (∀ (b : RegBackend) (r : Regulation), (none : Option RegBackend) = some b →
        b (get_regulation_text "HIPAA") ≠ .ok r) →
      (parse_regulations none (fun _ => none) [] ["HIPAA"]).1.lookup "HIPAA"
        = some (get_default_regulation "HIPAA") ∧
      (get_default_regulation "HIPAA").key_requirements = [] ∧
      (get_default_regulation "HIPAA").penalties.max_fine_percentage = 4 / 100)) :=
  ⟨by simp,
    claim_C9_parse_regulations none (fun _ => none) [] ["HIPAA"] "HIPAA" (by simp)⟩

/-! ## End-to-end run (claim C8) -/

/-- C8: end to end with no backend, the Acme/GDPR analysis scores below
100 (92.86 after rounding), reports exactly the data-minimization and
international-transfer violations, assesses risk "medium" (severity points
3 + 6 = 9) and estimates the fine at 2% of revenue = 20000.0. -/
theorem claim_C8_end_to_end :
    acme_result.compliance_score = some (4643 / 50) ∧
    ((4643 : ℚ) / 50) < 100 ∧
    (acme_result.violations.getD []).map (fun v => v.id) =
      [some "gdpr_data_minimization", some "gdpr_international_transfer"] ∧
    acme_result.risk_level = some "medium" ∧
    acme_result.estimated_fine = some (some 20000) ∧
    (20000 : ℚ) = (2 / 100) * 1000000 := by
  have hmap : (parse_regulations none (fun _ => none) ([] : RegCache) ["GDPR"]).1
      = [("GDPR", gdpr_regulation)] := rfl
  have haudit : audit_systems_noModel acme_company [("GDPR", gdpr_regulation)]
      = acme_audit := rfl
  have hscore : calculate_compliance_score acme_audit = 650 / 7 := by
    simp only [calculate_compliance_score, acme_audit, Option.getD_some,
      List.foldl_cons, List.foldl_nil]
    have h1 : severityWeight acme_min_violation = 2 := rfl
    have h2 : severityWeight acme_transfer_violation = 3 := rfl
    rw [h1, h2]
    norm_num
  have hfloor : round ((65000 : ℚ) / 7) = 9286 := by
    rw [round_eq, Int.floor_eq_iff] <;> norm_num
  have hround2 : round2 (650 / 7) = 4643 / 50 := by
    rw [round2, show ((650 : ℚ) / 7) * 100 = 65000 / 7 by ring, hfloor]
    norm_num
  have hfine : round2 (20000 : ℚ) = 20000 := by
    rw [round2, show ((20000 : ℚ) * 100) = ((2000000 : ℤ) : ℚ) by norm_num,
      round_intCast]
    norm_num
  have hrisk : assess_risk acme_audit (some 1000000) = ("medium", some 20000) := by
    simp only [assess_risk, acme_audit, Option.getD_some, List.isEmpty_cons,
      Bool.false_eq_true, if_false, List.foldl_cons, List.foldl_nil]
    have h1 : severityPoints acme_min_violation = 3 := rfl
    have h2 : severityPoints acme_transfer_violation = 6 := rfl
    simp only [h1, h2]
    norm_num [pyTruthyQ, hfine]
  have hrev : acme_company.revenue.getD 0 = 1000000 := rfl
  refine ⟨?_, by norm_num, ?_, ?_, ?_, by norm_num⟩ <;>
    simp only [acme_result, analyze_noBackend, analyze_compliance, runPipeline,
      bind, Except.bind, pure, Except.pure, hmap, haudit, hrev, hscore,
      hrisk, hround2] <;>
    simp [acme_audit, acme_min_violation, acme_transfer_violation]

end GeminiCompliance
